import Mathlib

/-!
Shallow embedding of `testlab/cloud/gen-report.py` (NDJSON trace events to
HTML test report).  Python dicts holding JSON values are modelled as
association lists `List (String × JVal)`; JSON numbers are modelled as `Int`
(the trace timestamps and durations are integral); code that can raise a
Python exception (`KeyError` on `ev["k"]`, `AttributeError` on
`.startswith` of a non-string, `TypeError`/`ValueError` in arithmetic and
`float(...)`) is modelled in `Option`, with `none` standing for a raised
exception.  Two deliberate simplifications, neither exercised by any claim:
`float(...)` of a numeric *string* (which CPython would parse) is modelled
as a failure, and a non-numeric `ts` stored by an event is rejected at the
point it is read rather than at the later arithmetic/`min` that would raise
in CPython.
-/

set_option autoImplicit false

/-- JSON scalar values as they occur in trace events. -/
inductive JVal where
  | str : String → JVal
  | num : Int → JVal
  | bool : Bool → JVal
  | null : JVal
deriving DecidableEq

/-- A parsed NDJSON event: a Python dict from field name to value. -/
abbrev EventDict := List (String × JVal)

def kType : String := "type"
def kName : String := "name"
def kTs : String := "ts"
def kTier : String := "tier"
def kResult : String := "result"
def kDuration : String := "duration"
def kParams : String := "params"
def kTypeParam : String := "type_param"
def kTests : String := "tests"
def kMbps : String := "mbps"
def kSizeMb : String := "size_mb"
def kPayload : String := "payload"
def dataPre : String := "data_"

/-- Python `str.strip()` with no argument: remove leading and trailing
whitespace (written over character lists so it evaluates by kernel
reduction). -/
def pyStrip (s : String) : String :=
  String.mk (((s.data.dropWhile Char.isWhitespace).reverse.dropWhile
    Char.isWhitespace).reverse)

/-- Python `str.startswith(pre)` (written over character lists so it
evaluates by kernel reduction). -/
def pyStartsWith (s pre : String) : Bool :=
  pre.data.isPrefixOf s.data

/-- Python `ev.get(k, d)`: total dictionary access with a default. -/
def dictGet (ev : EventDict) (k : String) (d : JVal) : JVal :=
  (ev.lookup k).getD d

/-- A JSON value used where Python needs a number. -/
def asNum : JVal → Option Int
  | JVal.num n => some n
  | _ => none

/-- Python `float(x)` on a JSON value (string parsing not modelled). -/
def pyFloat : JVal → Option Int
  | JVal.num n => some n
  | JVal.bool b => some (if b then 1 else 0)
  | _ => none

/-- The `starts` dict of the pairing loops: test/tier name to its pending
start event.  Keys are raw JSON values, as in Python. -/
abbrev SMap := List (JVal × EventDict)

def smapLookup (m : SMap) (k : JVal) : Option EventDict :=
  (m.find? (fun p => decide (p.1 = k))).map (fun p => p.2)

/-- Python `starts[k] = v` (only lookup/pop observe the map, so the
erase-then-cons representation is adequate). -/
def smapInsert (m : SMap) (k : JVal) (v : EventDict) : SMap :=
  (k, v) :: m.filter (fun p => !(decide (p.1 = k)))

/-- The removal part of Python `starts.pop(k, None)`. -/
def smapErase (m : SMap) (k : JVal) : SMap :=
  m.filter (fun p => !(decide (p.1 = k)))

/-- One record of `build_test_timeline` (Python key `end` is `endTs` here,
`end` being a Lean keyword). -/
structure TimelineEntry where
  id : JVal
  test_name : JVal
  tier : JVal
  start : Int
  endTs : Int
  duration : Int
  result : JVal
deriving DecidableEq

/-- The loop of `build_test_timeline` (gen-report.py lines 39-56), with the
`starts` dict and the `timeline` accumulator as explicit state. -/
def bttLoop : SMap → List TimelineEntry → List EventDict →
    Option (SMap × List TimelineEntry)
  | starts, timeline, [] => some (starts, timeline)
  | starts, timeline, ev :: rest =>
    match ev.lookup kType with
    | none => none
    | some ty =>
      if ty = JVal.str ("test_start") then
        match ev.lookup kName with
        | none => none
        | some nm => bttLoop (smapInsert starts nm ev) timeline rest
      else if ty = JVal.str ("test_end") then
        match ev.lookup kName with
        | none => none
        | some nm =>
          match (ev.lookup kTs).bind asNum with
          | none => none
          | some endTs =>
            match (match smapLookup starts nm with
                   | some sEv => (sEv.lookup kTs).bind asNum
                   | none => some endTs) with
            | none => none
            | some startTs =>
              match pyFloat (dictGet ev kDuration (JVal.num (endTs - startTs))) with
              | none => none
              | some dur =>
                bttLoop (smapErase starts nm)
                  (timeline ++ [{ id := nm,
                                  test_name := dictGet ev kName (JVal.str ("")),
                                  tier := dictGet ev kTier (JVal.str ("?")),
                                  start := startTs,
                                  endTs := endTs,
                                  duration := dur,
                                  result := dictGet ev kResult (JVal.str ("?")) }]) rest
      else bttLoop starts timeline rest

/-- Python `build_test_timeline`. -/
def build_test_timeline (events : List EventDict) : Option (List TimelineEntry) :=
  (bttLoop [] [] events).map (fun p => p.2)

/-- One record of `build_chaos_events`. -/
structure ChaosEvent where
  ts : Int
  type : JVal
  node : JVal
  chaos_type : JVal
  params : JVal
  tier : JVal
deriving DecidableEq

/-- Python `build_chaos_events` (gen-report.py lines 59-72). -/
def build_chaos_events : List EventDict → Option (List ChaosEvent)
  | [] => some []
  | ev :: rest =>
    match ev.lookup kType with
    | none => none
    | some ty =>
      if ty = JVal.str ("chaos_apply") ∨ ty = JVal.str ("chaos_clear") then
        match (ev.lookup kTs).bind asNum, ev.lookup kName with
        | some ts, some nm =>
          (build_chaos_events rest).map (fun cs =>
            { ts := ts, type := ty, node := nm,
              chaos_type := dictGet ev kTypeParam (dictGet ev kType (JVal.str (""))),
              params := dictGet ev kParams (JVal.str ("")),
              tier := dictGet ev kTier (JVal.str ("?")) } :: cs)
        | _, _ => none
      else build_chaos_events rest

def reservedKeys : List String := [kTs, kType, kName, kTier]

/-- One record of `build_data_plane_metrics`: the four reserved fields plus
the verbatim copy of every non-reserved field of the event. -/
structure DataPlaneMetric where
  ts : Int
  type : String
  name : JVal
  tier : JVal
  extra : List (String × JVal)
deriving DecidableEq

/-- Python `build_data_plane_metrics` (gen-report.py lines 75-88).  A
non-string `type` makes `ev["type"].startswith` raise, hence `none`. -/
def build_data_plane_metrics : List EventDict → Option (List DataPlaneMetric)
  | [] => some []
  | ev :: rest =>
    match ev.lookup kType with
    | some (JVal.str s) =>
      if pyStartsWith s dataPre then
        match (ev.lookup kTs).bind asNum, ev.lookup kName with
        | some ts, some nm =>
          (build_data_plane_metrics rest).map (fun ms =>
            { ts := ts, type := s, name := nm,
              tier := dictGet ev kTier (JVal.str ("?")),
              extra := ev.filter (fun p => !(reservedKeys.contains p.1)) } :: ms)
        | _, _ => none
      else build_data_plane_metrics rest
    | some _ => none
    | none => none

/-- One record of `build_tier_summary`. -/
structure TierSummary where
  name : JVal
  start : Int
  endTs : Int
  duration : Int
  tests : JVal
deriving DecidableEq

/-- The loop of `build_tier_summary` (gen-report.py lines 93-108). -/
def tierLoop : SMap → List TierSummary → List EventDict →
    Option (SMap × List TierSummary)
  | starts, tiers, [] => some (starts, tiers)
  | starts, tiers, ev :: rest =>
    match ev.lookup kType with
    | none => none
    | some ty =>
      if ty = JVal.str ("tier_start") then
        match ev.lookup kName with
        | none => none
        | some nm => tierLoop (smapInsert starts nm ev) tiers rest
      else if ty = JVal.str ("tier_end") then
        match ev.lookup kName with
        | none => none
        | some nm =>
          match (ev.lookup kTs).bind asNum with
          | none => none
          | some endTs =>
            match (match smapLookup starts nm with
                   | some sEv => (sEv.lookup kTs).bind asNum
                   | none => some endTs) with
            | none => none
            | some startTs =>
              tierLoop (smapErase starts nm)
                (tiers ++ [{ name := nm, start := startTs, endTs := endTs,
                             duration := endTs - startTs,
                             tests := (match smapLookup starts nm with
                                       | some sEv => dictGet sEv kTests (JVal.str ("?"))
                                       | none => JVal.str ("?")) }]) rest
      else tierLoop starts tiers rest

/-- Python `build_tier_summary`. -/
def build_tier_summary (events : List EventDict) : Option (List TierSummary) :=
  (tierLoop [] [] events).map (fun p => p.2)

/-- Zero-padding of Python `f-string 02d` (arguments here are seconds or
minutes remainders, always in `[0, 60)`). -/
def pad2 (n : Int) : String :=
  if 0 ≤ n ∧ n < 10 then ("0") ++ toString n else toString n

/-- Python `format_duration` (gen-report.py lines 111-119); durations are
integral so the leading `.0f` formatting is the identity. -/
def format_duration (seconds : Int) : String :=
  if seconds < 60 then toString seconds ++ "s"
  else
    let m := seconds.ediv 60
    let s := seconds.emod 60
    if m < 60 then toString m ++ "m" ++ pad2 s ++ "s"
    else toString (m.ediv 60) ++ "h" ++ pad2 (m.emod 60) ++ "m" ++ pad2 s ++ "s"

/-- Python `str(x)` on a JSON value, as used by the f-string template. -/
def jstr : JVal → String
  | JVal.str s => s
  | JVal.num n => toString n
  | JVal.bool b => if b then ("True") else ("False")
  | JVal.null => "None"

/-- Round to the nearest integer, ties to even (CPython float formatting). -/
def roundHalfEven (q : Rat) : Int :=
  let fl := q.floor
  let r := q - (fl : Rat)
  if r < (1 : Rat) / 2 then fl
  else if (1 : Rat) / 2 < r then fl + 1
  else if fl % 2 = 0 then fl else fl + 1

/-- Python `f-string .2f` on the (nonnegative) percentage values. -/
def fmt2 (q : Rat) : String :=
  let n := roundHalfEven (q * 100)
  toString (n.ediv 100) ++ "." ++ pad2 (n.emod 100)

/-- Python `colors.get(result, gray)` (gen-report.py lines 139 and 146). -/
def colorOf (r : JVal) : String :=
  if r = JVal.str ("PASS") then "#22c55e"
  else if r = JVal.str ("FAIL") then "#ef4444"
  else if r = JVal.str ("SKIP") then "#eab308"
  else "#6b7280"

/-- Python `all_times` (gen-report.py line 133). -/
def allTimes (tl : List TimelineEntry) : List Int :=
  tl.map (fun t => t.start) ++ tl.map (fun t => t.endTs)

/-- Left offset percentage of a Gantt bar (gen-report.py line 144). -/
def ganttLeftPct (tMin tRange : Int) (t : TimelineEntry) : Rat :=
  (((t.start - tMin : Int) : Rat) / (tRange : Rat)) * 100

/-- Width percentage of a Gantt bar, floored at 0.5 (line 145). -/
def ganttWidthPct (tRange : Int) (t : TimelineEntry) : Rat :=
  max ((((t.endTs - t.start : Int) : Rat) / (tRange : Rat)) * 100) ((1 : Rat) / 2)

/-- One Gantt bar fragment (gen-report.py lines 147-156). -/
def ganttBarHtml (tMin tRange : Int) (t : TimelineEntry) : String :=
  "\n        <div class=\"gantt-row\">\n            <div class=\"gantt-label\">" ++
  jstr t.id ++
  "</div>\n            <div class=\"gantt-track\">\n                <div class=\"gantt-bar\" style=\"left:" ++
  fmt2 (ganttLeftPct tMin tRange t) ++ "%;width:" ++ fmt2 (ganttWidthPct tRange t) ++
  "%;background:" ++ colorOf t.result ++ "\"\n                     title=\"" ++
  jstr t.id ++ ": " ++ format_duration t.duration ++ " (" ++ jstr t.result ++
  ")\">\n                    " ++ format_duration t.duration ++
  "\n                </div>\n            </div>\n        </div>"

/-- One results-table row (gen-report.py lines 159-168). -/
def testRowHtml (t : TimelineEntry) : String :=
  "\n        <tr>\n            <td>" ++ jstr t.id ++
  "</td>\n            <td>Tier " ++ jstr t.tier ++
  "</td>\n            <td><span class=\"badge\" style=\"background:" ++ colorOf t.result ++
  "\">" ++ jstr t.result ++ "</span></td>\n            <td>" ++
  format_duration t.duration ++ "</td>\n        </tr>"

/-- Python `m.get(k, d)` on a data-plane metric: the keys the renderer asks
for (`result`, `mbps`, `size_mb`, `payload`, `duration`) are never reserved,
so they live in the verbatim `extra` part of the merged dict. -/
def mGet (m : DataPlaneMetric) (k : String) (d : JVal) : JVal :=
  (m.extra.lookup k).getD d

/-- One data-plane row (gen-report.py lines 173-180). -/
def dpRowHtml (m : DataPlaneMetric) : String :=
  "\n        <tr>\n            <td>" ++ m.type ++
  "</td>\n            <td>" ++ jstr m.name ++
  "</td>\n            <td>Tier " ++ jstr m.tier ++
  "</td>\n            <td>" ++ jstr (mGet m kResult (mGet m kMbps (JVal.str ("-")))) ++
  "</td>\n            <td>" ++
  jstr (mGet m kSizeMb (mGet m kPayload (mGet m kDuration (JVal.str ("-"))))) ++
  "</td>\n        </tr>"

/-- One tier-summary row (gen-report.py lines 185-190). -/
def tierRowHtml (t : TierSummary) : String :=
  "\n        <tr>\n            <td>" ++ jstr t.name ++
  "</td>\n            <td>" ++ jstr t.tests ++
  "</td>\n            <td>" ++ format_duration t.duration ++ "</td>\n        </tr>"

/-- One chaos-log row (gen-report.py lines 196-203). -/
def chaosRowHtml (tMin : Int) (c : ChaosEvent) : String :=
  "\n        <tr>\n            <td>" ++ format_duration (c.ts - tMin) ++
  "</td>\n            <td>Tier " ++ jstr c.tier ++
  "</td>\n            <td>" ++ jstr c.type ++
  "</td>\n            <td>" ++ jstr c.node ++
  "</td>\n            <td>" ++ jstr c.params ++ "</td>\n        </tr>"

/-- Summary counter (gen-report.py line 207). -/
def passedCount (tl : List TimelineEntry) : Nat :=
  tl.countP (fun t => decide (t.result = JVal.str ("PASS")))

/-- Summary counter (gen-report.py line 208). -/
def failedCount (tl : List TimelineEntry) : Nat :=
  tl.countP (fun t => decide (t.result = JVal.str ("FAIL")))

/-- Summary counter (gen-report.py line 209). -/
def skippedCount (tl : List TimelineEntry) : Nat :=
  tl.countP (fun t => decide (t.result = JVal.str ("SKIP")))

/-- The early return of `generate_html` for an empty timeline (line 130). -/
def noEventsHtml : String :=
  "<html><body><h1>No test events found</h1></body></html>"

/-- The fixed part of the HTML template that precedes the embedded
generation timestamp (gen-report.py lines 214-249). -/
def htmlBeforeNow : String :=
  "<!DOCTYPE html>\n" ++
  "<html lang=\"en\">\n" ++
  "<head>\n" ++
  "<meta charset=\"utf-8\">\n" ++
  "<meta name=\"viewport\" content=\"width=device-width, initial-scale=1\">\n" ++
  "<title>wgmesh Integration Test Report</title>\n" ++
  "<style>\n" ++
  "    * \x7b margin: 0; padding: 0; box-sizing: border-box; \x7d\n" ++
  "    body \x7b font-family: -apple-system, system-ui, sans-serif; background: #0f172a; color: #e2e8f0; padding: 2rem; \x7d\n" ++
  "    h1 \x7b color: #f1f5f9; margin-bottom: 0.5rem; \x7d\n" ++
  "    h2 \x7b color: #94a3b8; margin: 2rem 0 1rem; border-bottom: 1px solid #334155; padding-bottom: 0.5rem; \x7d\n" ++
  "    .stats \x7b display: flex; gap: 1.5rem; margin: 1rem 0 2rem; flex-wrap: wrap; \x7d\n" ++
  "    .stat \x7b background: #1e293b; padding: 1rem 1.5rem; border-radius: 8px; min-width: 120px; \x7d\n" ++
  "    .stat-value \x7b font-size: 2rem; font-weight: 700; \x7d\n" ++
  "    .stat-label \x7b color: #94a3b8; font-size: 0.85rem; \x7d\n" ++
  "    .pass \x7b color: #22c55e; \x7d\n" ++
  "    .fail \x7b color: #ef4444; \x7d\n" ++
  "    .skip \x7b color: #eab308; \x7d\n" ++
  "    table \x7b width: 100%; border-collapse: collapse; background: #1e293b; border-radius: 8px; overflow: hidden; margin-bottom: 1rem; \x7d\n" ++
  "    th \x7b background: #334155; padding: 0.75rem 1rem; text-align: left; font-size: 0.85rem; color: #94a3b8; \x7d\n" ++
  "    td \x7b padding: 0.5rem 1rem; border-top: 1px solid #334155; font-size: 0.9rem; \x7d\n" ++
  "    tr:hover \x7b background: #334155; \x7d\n" ++
  "    .badge \x7b padding: 2px 8px; border-radius: 4px; color: white; font-size: 0.8rem; font-weight: 600; \x7d\n" ++
  "    .gantt-row \x7b display: flex; align-items: center; margin: 2px 0; \x7d\n" ++
  "    .gantt-label \x7b width: 80px; font-size: 0.8rem; color: #94a3b8; text-align: right; padding-right: 8px; flex-shrink: 0; \x7d\n" ++
  "    .gantt-track \x7b flex: 1; height: 24px; background: #1e293b; border-radius: 4px; position: relative; overflow: hidden; \x7d\n" ++
  "    .gantt-bar \x7b position: absolute; height: 100%; border-radius: 4px; display: flex; align-items: center; padding: 0 6px;\n" ++
  "                  font-size: 0.7rem; color: white; white-space: nowrap; overflow: hidden; min-width: 4px; \x7d\n" ++
  "    .footer \x7b margin-top: 3rem; color: #475569; font-size: 0.8rem; text-align: center; \x7d\n" ++
  "    .section \x7b margin-bottom: 2rem; \x7d\n" ++
  "    .empty \x7b color: #64748b; font-style: italic; padding: 1rem; \x7d\n" ++
  "</style>\n" ++
  "</head>\n" ++
  "<body>\n" ++
  "<h1>wgmesh Integration Test Report</h1>\n" ++
  "<p style=\"color:#64748b\">Generated: "

/-- The part of the HTML template after the embedded generation timestamp
(gen-report.py lines 249-291): summary counters, the four sections with
their per-section empty-state fallbacks, and the footer. -/
def htmlAfterNow (events : List EventDict) (timeline : List TimelineEntry)
    (chaos : List ChaosEvent) (data_metrics : List DataPlaneMetric)
    (tiers : List TierSummary) (tMin tRange : Int) : String :=
  let gantt_bars := timeline.map (ganttBarHtml tMin tRange)
  let test_rows := timeline.map testRowHtml
  let dp_rows := data_metrics.map dpRowHtml
  let tier_rows := tiers.map tierRowHtml
  let chaos_rows := chaos.map (chaosRowHtml tMin)
  "</p>\n\n<div class=\"stats\">\n    <div class=\"stat\"><div class=\"stat-value\">" ++
  toString timeline.length ++
  "</div><div class=\"stat-label\">Total Tests</div></div>\n    <div class=\"stat\"><div class=\"stat-value pass\">" ++
  toString (passedCount timeline) ++
  "</div><div class=\"stat-label\">Passed</div></div>\n    <div class=\"stat\"><div class=\"stat-value fail\">" ++
  toString (failedCount timeline) ++
  "</div><div class=\"stat-label\">Failed</div></div>\n    <div class=\"stat\"><div class=\"stat-value skip\">" ++
  toString (skippedCount timeline) ++
  "</div><div class=\"stat-label\">Skipped</div></div>\n    <div class=\"stat\"><div class=\"stat-value\">" ++
  format_duration tRange ++
  "</div><div class=\"stat-label\">Duration</div></div>\n</div>\n\n<div class=\"section\">\n<h2>Test Timeline</h2>\n" ++
  (if gantt_bars.isEmpty then "<p class=\"empty\">No timing data</p>"
   else String.join gantt_bars) ++
  "\n</div>\n\n<div class=\"section\">\n<h2>Tier Summary</h2>\n" ++
  (if tier_rows.isEmpty then "<p class=\"empty\">No tier data</p>"
   else "<table><tr><th>Tier</th><th>Tests</th><th>Duration</th></tr>" ++
        String.join tier_rows ++ "</table>") ++
  "\n</div>\n\n<div class=\"section\">\n<h2>Test Results</h2>\n<table>\n<tr><th>ID</th><th>Tier</th><th>Result</th><th>Duration</th></tr>\n" ++
  String.join test_rows ++
  "\n</table>\n</div>\n\n<div class=\"section\">\n<h2>Data Plane Metrics</h2>\n" ++
  (if dp_rows.isEmpty then "<p class=\"empty\">No data plane events</p>"
   else "<table><tr><th>Type</th><th>Pair</th><th>Tier</th><th>Result</th><th>Detail</th></tr>" ++
        String.join dp_rows ++ "</table>") ++
  "\n</div>\n\n<div class=\"section\">\n<h2>Chaos Events (" ++
  toString chaos.length ++ ")</h2>\n" ++
  (if chaos_rows.isEmpty then "<p class=\"empty\">No chaos events</p>"
   else "<table><tr><th>Time</th><th>Tier</th><th>Action</th><th>Node</th><th>Params</th></tr>" ++
        String.join chaos_rows ++ "</table>") ++
  "\n</div>\n\n<div class=\"footer\">\n    wgmesh integration test observability &middot; " ++
  toString events.length ++ " trace events\n</div>\n</body>\n</html>"

/-- Python `generate_html` (gen-report.py lines 122-291).  The ambient
`datetime.now(timezone.utc)` reading of line 212 is made an explicit `now`
argument; everything else is a function of the event list alone. -/
def generate_html (events : List EventDict) (now : String) : Option String := do
  let timeline ← build_test_timeline events
  let chaos ← build_chaos_events events
  let data_metrics ← build_data_plane_metrics events
  let tiers ← build_tier_summary events
  if timeline.isEmpty then
    pure noEventsHtml
  else do
    let tMin ← (allTimes timeline).min?
    let tMax ← (allTimes timeline).max?
    pure (htmlBeforeNow ++ now ++
      htmlAfterNow events timeline chaos data_metrics tiers tMin (max (tMax - tMin) 1))

/-- Python `load_events` (gen-report.py lines 22-34), over the file's lines,
with the standard-library `json.loads` (returning `none` on a
`JSONDecodeError`) abstracted as the `loads` argument. -/
def load_events {α : Type} (loads : String → Option α) : List String → List α
  | [] => []
  | line :: rest =>
    let l := pyStrip line
    if l = "" then load_events loads rest
    else
      match loads l with
      | some ev => ev :: load_events loads rest
      | none => load_events loads rest

/-- An event is well formed when the three fields the data model declares
universal (`type` a string, `name`, `ts` a number) are present, and its
`duration` field, if any, is a number (spec section 3). -/
def wfEvent (ev : EventDict) : Bool :=
  (match ev.lookup kType with
   | some (JVal.str _) => true
   | _ => false) &&
  (ev.lookup kName).isSome &&
  (match ev.lookup kTs with
   | some (JVal.num _) => true
   | _ => false) &&
  (match ev.lookup kDuration with
   | none => true
   | some (JVal.num _) => true
   | _ => false)

/-- Modelled from the spec's words for claim C1: the number of distinct
test names having at least one `test_end` event. -/
def spec_distinctTestEndNames (events : List EventDict) : Nat :=
  (events.filterMap (fun ev =>
    if ev.lookup kType = some (JVal.str ("test_end")) then ev.lookup kName
    else none)).dedup.length

/-- Number of `test_end` occurrences in the input. -/
def testEndCount (events : List EventDict) : Nat :=
  events.countP (fun ev => decide (ev.lookup kType = some (JVal.str ("test_end"))))

/-! ### Helper lemmas -/

theorem smapLookup_eq_none_iff (m : SMap) (k : JVal) :
    smapLookup m k = none ↔ ∀ p ∈ m, p.1 ≠ k := by
  simp [smapLookup, Option.map_eq_none', List.find?_eq_none]

theorem smapLookup_insert_none (m : SMap) (k k' : JVal) (v : EventDict)
    (hne : k' ≠ k) (h : smapLookup m k = none) :
    smapLookup (smapInsert m k' v) k = none := by
  rw [smapLookup_eq_none_iff] at h ⊢
  intro p hp
  rcases List.mem_cons.mp hp with hp | hp
  · rw [hp]; exact hne
  · exact h p (List.mem_filter.mp hp).1

theorem smapLookup_erase_none (m : SMap) (k k' : JVal)
    (h : smapLookup m k = none) :
    smapLookup (smapErase m k') k = none := by
  rw [smapLookup_eq_none_iff] at h ⊢
  intro p hp
  exact h p (List.mem_filter.mp hp).1

theorem min?_isSome_of_ne_nil {l : List Int} (h : l ≠ []) : l.min?.isSome := by
  cases l with
  | nil => exact absurd rfl h
  | cons x xs => simp [List.min?]

theorem max?_isSome_of_ne_nil {l : List Int} (h : l ≠ []) : l.max?.isSome := by
  cases l with
  | nil => exact absurd rfl h
  | cons x xs => simp [List.max?]

/-! ### Claim C9 -/

/-- A stand-in for the library `json.loads` when evaluating `load_events` on
a concrete file: a line parses exactly when it is a nonempty digit string. -/
def toyParse (s : String) : Option Nat :=
  if s.data ≠ [] ∧ s.data.all Char.isDigit then
    some (s.data.foldl (fun n c => n * 10 + (c.toNat - 48)) 0)
  else none

/-- C9: `load_events` returns exactly the objects of the parseable non-blank
lines in file order: blank lines are skipped, unparseable lines are silently
dropped, and a file of ten lines of which one is corrupt yields exactly nine
events. -/
theorem load_events_exact {α : Type} (loads : String → Option α) (lines : List String) :
    load_events loads lines =
      lines.filterMap (fun line =>
        if pyStrip line = "" then none else loads (pyStrip line)) ∧
    (load_events loads lines).length =
      lines.countP (fun line =>
        !(pyStrip line == "") && (loads (pyStrip line)).isSome) ∧
    load_events toyParse ["1", "2", "3", "4", "x!", "5", "6", "7", "8", "9"] =
      [1, 2, 3, 4, 5, 6, 7, 8, 9] := by
  refine ⟨?_, ?_, by decide⟩
  · induction lines with
    | nil => rfl
    | cons l rest ih =>
      by_cases h : pyStrip l = ""
      · simp [load_events, h, ih]
      · cases hl : loads (pyStrip l) <;> simp [load_events, h, hl, ih]
  · induction lines with
    | nil => rfl
    | cons l rest ih =>
      by_cases h : pyStrip l = ""
      · simp [load_events, h, ih, List.countP_cons]
      · cases hl : loads (pyStrip l) <;>
          simp [load_events, h, hl, ih, List.countP_cons]

/-! ### Claim C10 -/

theorem counts_le_and_eq (tl : List TimelineEntry) :
    passedCount tl + failedCount tl + skippedCount tl ≤ tl.length ∧
    (passedCount tl + failedCount tl + skippedCount tl = tl.length ↔
      ∀ t ∈ tl, t.result = JVal.str ("PASS") ∨ t.result = JVal.str ("FAIL") ∨
        t.result = JVal.str ("SKIP")) := by
  induction tl with
  | nil => simp [passedCount, failedCount, skippedCount]
  | cons t rest ih =>
    obtain ⟨ih1, ih2⟩ := ih
    have cP : passedCount (t :: rest) =
        passedCount rest + (if t.result = JVal.str ("PASS") then 1 else 0) := by
      simp [passedCount, List.countP_cons]
    have cF : failedCount (t :: rest) =
        failedCount rest + (if t.result = JVal.str ("FAIL") then 1 else 0) := by
      simp [failedCount, List.countP_cons]
    have cS : skippedCount (t :: rest) =
        skippedCount rest + (if t.result = JVal.str ("SKIP") then 1 else 0) := by
      simp [skippedCount, List.countP_cons]
    rw [cP, cF, cS, List.length_cons, List.forall_mem_cons]
    by_cases hP : t.result = JVal.str ("PASS")
    · rw [if_pos hP, if_neg (by simp [hP]), if_neg (by simp [hP])]
      refine ⟨by omega, ?_, ?_⟩
      · intro h
        exact ⟨Or.inl hP, ih2.mp (by omega)⟩
      · rintro ⟨-, h2⟩
        have := ih2.mpr h2
        omega
    · by_cases hF : t.result = JVal.str ("FAIL")
      · rw [if_neg hP, if_pos hF, if_neg (by simp [hF])]
        refine ⟨by omega, ?_, ?_⟩
        · intro h
          exact ⟨Or.inr (Or.inl hF), ih2.mp (by omega)⟩
        · rintro ⟨-, h2⟩
          have := ih2.mpr h2
          omega
      · by_cases hS : t.result = JVal.str ("SKIP")
        · rw [if_neg hP, if_neg hF, if_pos hS]
          refine ⟨by omega, ?_, ?_⟩
          · intro h
            exact ⟨Or.inr (Or.inr hS), ih2.mp (by omega)⟩
          · rintro ⟨-, h2⟩
            have := ih2.mpr h2
            omega
        · rw [if_neg hP, if_neg hF, if_neg hS]
          refine ⟨by omega, ?_, ?_⟩
          · intro h
            exact absurd (by omega : passedCount rest + failedCount rest +
              skippedCount rest = rest.length + 1) (by omega)
          · rintro ⟨h1, -⟩
            exact absurd h1 (by tauto)

/-- C10: for every event list with a non-empty derived timeline, the summary
counters satisfy passed + failed + skipped ≤ total, with equality exactly
when every entry's result is PASS, FAIL or SKIP. -/
theorem summary_counters_bound (evs : List EventDict) (tl : List TimelineEntry)
    (hb : build_test_timeline evs = some tl) (hne : tl ≠ []) :
    passedCount tl + failedCount tl + skippedCount tl ≤ tl.length ∧
    (passedCount tl + failedCount tl + skippedCount tl = tl.length ↔
      ∀ t ∈ tl, t.result = JVal.str ("PASS") ∨ t.result = JVal.str ("FAIL") ∨
        t.result = JVal.str ("SKIP")) :=
  counts_le_and_eq tl

def c10Events : List EventDict :=
  [[(kType, JVal.str ("test_end")), (kName, JVal.str ("A")), (kTs, JVal.num 5),
    (kResult, JVal.str ("PASS"))],
   [(kType, JVal.str ("test_end")), (kName, JVal.str ("B")), (kTs, JVal.num 7)]]

def c10Timeline : List TimelineEntry :=
  [{ id := JVal.str ("A"), test_name := JVal.str ("A"), tier := JVal.str ("?"),
     start := 5, endTs := 5, duration := 0, result := JVal.str ("PASS") },
   { id := JVal.str ("B"), test_name := JVal.str ("B"), tier := JVal.str ("?"),
     start := 7, endTs := 7, duration := 0, result := JVal.str ("?") }]

theorem summary_counters_bound_witness :
    build_test_timeline c10Events = some c10Timeline ∧ c10Timeline ≠ [] ∧
    (passedCount c10Timeline + failedCount c10Timeline + skippedCount c10Timeline ≤
        c10Timeline.length ∧
      (passedCount c10Timeline + failedCount c10Timeline + skippedCount c10Timeline =
          c10Timeline.length ↔
        ∀ t ∈ c10Timeline, t.result = JVal.str ("PASS") ∨
          t.result = JVal.str ("FAIL") ∨ t.result = JVal.str ("SKIP"))) :=
  ⟨by decide, by decide, summary_counters_bound c10Events c10Timeline (by decide) (by decide)⟩

/-! ### Claim C8 -/

/-- C8: for a non-empty timeline the global window denominator used to place
Gantt bars is floored at 1 time unit, and every bar's width percentage is at
least the 0.5 percent visibility floor. -/
theorem gantt_denominator_and_width_floor (evs : List EventDict)
    (tl : List TimelineEntry) (tMin tMax : Int)
    (hb : build_test_timeline evs = some tl) (hne : tl ≠ [])
    (hmin : (allTimes tl).min? = some tMin)
    (hmax : (allTimes tl).max? = some tMax) :
    1 ≤ max (tMax - tMin) 1 ∧
    ∀ t ∈ tl, (1 : Rat) / 2 ≤ ganttWidthPct (max (tMax - tMin) 1) t := by
  refine ⟨le_max_right _ _, ?_⟩
  intro t _
  exact le_max_right _ _

def c8Events : List EventDict :=
  [[(kType, JVal.str ("test_end")), (kName, JVal.str ("A")), (kTs, JVal.num 5)]]

def c8Timeline : List TimelineEntry :=
  [{ id := JVal.str ("A"), test_name := JVal.str ("A"), tier := JVal.str ("?"),
     start := 5, endTs := 5, duration := 0, result := JVal.str ("?") }]

theorem gantt_denominator_and_width_floor_witness :
    build_test_timeline c8Events = some c8Timeline ∧ c8Timeline ≠ [] ∧
    (allTimes c8Timeline).min? = some 5 ∧ (allTimes c8Timeline).max? = some 5 ∧
    (1 ≤ max ((5 : Int) - 5) 1 ∧
      ∀ t ∈ c8Timeline, (1 : Rat) / 2 ≤ ganttWidthPct (max ((5 : Int) - 5) 1) t) :=
  ⟨by decide, by decide, by decide, by decide,
   gantt_denominator_and_width_floor c8Events c8Timeline 5 5
     (by decide) (by decide) (by decide) (by decide)⟩

/-! ### Claim C5 -/

/-- C5: for a matched test_start/test_end pair the emitted entry's duration
is the end event's explicit `duration` field when that field is present, and
`end.ts - start.ts` otherwise; the pair's entry carries the pending start's
timestamp as `start`. -/
theorem matched_pair_duration (starts : SMap) (tl : List TimelineEntry)
    (ev : EventDict) (rest : List EventDict) (nm : JVal) (sEv : EventDict)
    (tsS tsE : Int)
    (hstart : smapLookup starts nm = some sEv)
    (hsts : sEv.lookup kTs = some (JVal.num tsS))
    (hty : ev.lookup kType = some (JVal.str ("test_end")))
    (hnm : ev.lookup kName = some nm)
    (hts : ev.lookup kTs = some (JVal.num tsE)) :
    (∀ d : Int, ev.lookup kDuration = some (JVal.num d) →
      bttLoop starts tl (ev :: rest) =
        bttLoop (smapErase starts nm)
          (tl ++ [{ id := nm, test_name := dictGet ev kName (JVal.str ("")),
                    tier := dictGet ev kTier (JVal.str ("?")),
                    start := tsS, endTs := tsE, duration := d,
                    result := dictGet ev kResult (JVal.str ("?")) }]) rest) ∧
    (ev.lookup kDuration = none →
      bttLoop starts tl (ev :: rest) =
        bttLoop (smapErase starts nm)
          (tl ++ [{ id := nm, test_name := dictGet ev kName (JVal.str ("")),
                    tier := dictGet ev kTier (JVal.str ("?")),
                    start := tsS, endTs := tsE, duration := tsE - tsS,
                    result := dictGet ev kResult (JVal.str ("?")) }]) rest) := by
  constructor
  · intro d hd
    simp [bttLoop, hty, hnm, hts, hstart, hsts, asNum, dictGet, hd, pyFloat]
  · intro hd
    simp [bttLoop, hty, hnm, hts, hstart, hsts, asNum, dictGet, hd, pyFloat]

def c5Start : EventDict :=
  [(kType, JVal.str ("test_start")), (kName, JVal.str ("A")), (kTs, JVal.num 0)]

def c5End : EventDict :=
  [(kType, JVal.str ("test_end")), (kName, JVal.str ("A")), (kTs, JVal.num 10),
   (kDuration, JVal.num 7)]

theorem matched_pair_duration_witness :
    smapLookup [(JVal.str ("A"), c5Start)] (JVal.str ("A")) = some c5Start ∧
    c5Start.lookup kTs = some (JVal.num 0) ∧
    c5End.lookup kType = some (JVal.str ("test_end")) ∧
    c5End.lookup kName = some (JVal.str ("A")) ∧
    c5End.lookup kTs = some (JVal.num 10) ∧
    ((∀ d : Int, c5End.lookup kDuration = some (JVal.num d) →
      bttLoop [(JVal.str ("A"), c5Start)] [] (c5End :: []) =
        bttLoop (smapErase [(JVal.str ("A"), c5Start)] (JVal.str ("A")))
          ([] ++ [{ id := JVal.str ("A"),
                    test_name := dictGet c5End kName (JVal.str ("")),
                    tier := dictGet c5End kTier (JVal.str ("?")),
                    start := 0, endTs := 10, duration := d,
                    result := dictGet c5End kResult (JVal.str ("?")) }]) []) ∧
     (c5End.lookup kDuration = none →
      bttLoop [(JVal.str ("A"), c5Start)] [] (c5End :: []) =
        bttLoop (smapErase [(JVal.str ("A"), c5Start)] (JVal.str ("A")))
          ([] ++ [{ id := JVal.str ("A"),
                    test_name := dictGet c5End kName (JVal.str ("")),
                    tier := dictGet c5End kTier (JVal.str ("?")),
                    start := 0, endTs := 10, duration := 10 - 0,
                    result := dictGet c5End kResult (JVal.str ("?")) }]) [])) :=
  ⟨by decide, by decide, by decide, by decide, by decide,
   matched_pair_duration [(JVal.str ("A"), c5Start)] [] c5End [] (JVal.str ("A"))
     c5Start 0 10 (by decide) (by decide) (by decide) (by decide) (by decide)⟩

/-! ### Well-formedness machinery (claims C2, C3, C6, C7) -/

theorem wfEvent_spec (ev : EventDict) (h : wfEvent ev = true) :
    (∃ s, ev.lookup kType = some (JVal.str s)) ∧
    (∃ v, ev.lookup kName = some v) ∧
    (∃ t, ev.lookup kTs = some (JVal.num t)) ∧
    (ev.lookup kDuration = none ∨
      ∃ d, ev.lookup kDuration = some (JVal.num d)) := by
  simp only [wfEvent, Bool.and_eq_true] at h
  obtain ⟨⟨⟨h1, h2⟩, h3⟩, h4⟩ := h
  refine ⟨?_, ?_, ?_, ?_⟩
  · split at h1
    · rename_i s heq; exact ⟨s, heq⟩
    · cases h1
  · exact Option.isSome_iff_exists.mp h2
  · split at h3
    · rename_i t heq; exact ⟨t, heq⟩
    · cases h3
  · split at h4
    · rename_i heq; exact Or.inl heq
    · rename_i d heq; exact Or.inr ⟨d, heq⟩
    · cases h4

theorem wf_smapInsert (st : SMap) (nm : JVal) (ev : EventDict)
    (hst : ∀ p ∈ st, wfEvent p.2 = true) (hev : wfEvent ev = true) :
    ∀ p ∈ smapInsert st nm ev, wfEvent p.2 = true := by
  intro p hp
  rcases List.mem_cons.mp hp with h | h
  · rw [h]; exact hev
  · exact hst p (List.mem_filter.mp h).1

theorem wf_smapErase (st : SMap) (nm : JVal)
    (hst : ∀ p ∈ st, wfEvent p.2 = true) :
    ∀ p ∈ smapErase st nm, wfEvent p.2 = true := by
  intro p hp
  exact hst p (List.mem_filter.mp hp).1

theorem smapLookup_mem (m : SMap) (k : JVal) (v : EventDict)
    (h : smapLookup m k = some v) : ∃ p ∈ m, p.2 = v := by
  simp only [smapLookup, Option.map_eq_some'] at h
  obtain ⟨p, hp, hv⟩ := h
  exact ⟨p, List.mem_of_find?_eq_some hp, hv⟩

theorem bttLoop_isSome (evs : List EventDict) :
    ∀ (st : SMap) (tl : List TimelineEntry),
    (∀ p ∈ st, wfEvent p.2 = true) → (∀ e ∈ evs, wfEvent e = true) →
    (bttLoop st tl evs).isSome := by
  induction evs with
  | nil => intro st tl _ _; simp [bttLoop]
  | cons ev rest ih =>
    intro st tl hst hevs
    have hwfev := hevs ev (List.mem_cons_self ev rest)
    obtain ⟨⟨s, hT⟩, ⟨nmv, hN⟩, ⟨t, hTs⟩, hD⟩ := wfEvent_spec ev hwfev
    have hrest : ∀ e ∈ rest, wfEvent e = true :=
      fun e he => hevs e (List.mem_cons_of_mem _ he)
    have hbindts : (ev.lookup kTs).bind asNum = some t := by rw [hTs]; rfl
    by_cases h1 : JVal.str s = JVal.str ("test_start")
    · simp only [bttLoop, hT, hN, if_pos h1]
      exact ih _ tl (wf_smapInsert st nmv ev hst hwfev) hrest
    · by_cases h2 : JVal.str s = JVal.str ("test_end")
      · rcases hL : smapLookup st nmv with _ | sEv
        · rcases hD with hD | ⟨d, hD⟩
          · simp only [bttLoop, hT, hN, if_neg h1, if_pos h2, hbindts, hL,
              dictGet, hD, Option.getD_none, pyFloat]
            exact ih _ _ (wf_smapErase st nmv hst) hrest
          · simp only [bttLoop, hT, hN, if_neg h1, if_pos h2, hbindts, hL,
              dictGet, hD, Option.getD_some, pyFloat]
            exact ih _ _ (wf_smapErase st nmv hst) hrest
        · obtain ⟨p, hpmem, hp2⟩ := smapLookup_mem st nmv sEv hL
          obtain ⟨_, _, ⟨tS, hTsS⟩, _⟩ := wfEvent_spec sEv (hp2 ▸ hst p hpmem)
          have hbindS : (sEv.lookup kTs).bind asNum = some tS := by rw [hTsS]; rfl
          rcases hD with hD | ⟨d, hD⟩
          · simp only [bttLoop, hT, hN, if_neg h1, if_pos h2, hbindts, hL,
              hbindS, dictGet, hD, Option.getD_none, pyFloat]
            exact ih _ _ (wf_smapErase st nmv hst) hrest
          · simp only [bttLoop, hT, hN, if_neg h1, if_pos h2, hbindts, hL,
              hbindS, dictGet, hD, Option.getD_some, pyFloat]
            exact ih _ _ (wf_smapErase st nmv hst) hrest
      · simp only [bttLoop, hT, if_neg h1, if_neg h2]
        exact ih st tl hst hrest

theorem tierLoop_isSome (evs : List EventDict) :
    ∀ (st : SMap) (ti : List TierSummary),
    (∀ p ∈ st, wfEvent p.2 = true) → (∀ e ∈ evs, wfEvent e = true) →
    (tierLoop st ti evs).isSome := by
  induction evs with
  | nil => intro st ti _ _; simp [tierLoop]
  | cons ev rest ih =>
    intro st ti hst hevs
    have hwfev := hevs ev (List.mem_cons_self ev rest)
    obtain ⟨⟨s, hT⟩, ⟨nmv, hN⟩, ⟨t, hTs⟩, _⟩ := wfEvent_spec ev hwfev
    have hrest : ∀ e ∈ rest, wfEvent e = true :=
      fun e he => hevs e (List.mem_cons_of_mem _ he)
    have hbindts : (ev.lookup kTs).bind asNum = some t := by rw [hTs]; rfl
    by_cases h1 : JVal.str s = JVal.str ("tier_start")
    · simp only [tierLoop, hT, hN, if_pos h1]
      exact ih _ ti (wf_smapInsert st nmv ev hst hwfev) hrest
    · by_cases h2 : JVal.str s = JVal.str ("tier_end")
      · rcases hL : smapLookup st nmv with _ | sEv
        · simp only [tierLoop, hT, hN, if_neg h1, if_pos h2, hbindts, hL]
          exact ih _ _ (wf_smapErase st nmv hst) hrest
        · obtain ⟨p, hpmem, hp2⟩ := smapLookup_mem st nmv sEv hL
          obtain ⟨_, _, ⟨tS, hTsS⟩, _⟩ := wfEvent_spec sEv (hp2 ▸ hst p hpmem)
          have hbindS : (sEv.lookup kTs).bind asNum = some tS := by rw [hTsS]; rfl
          simp only [tierLoop, hT, hN, if_neg h1, if_pos h2, hbindts, hL, hbindS]
          exact ih _ _ (wf_smapErase st nmv hst) hrest
      · simp only [tierLoop, hT, if_neg h1, if_neg h2]
        exact ih st ti hst hrest

theorem build_chaos_events_isSome (evs : List EventDict)
    (h : ∀ e ∈ evs, wfEvent e = true) : (build_chaos_events evs).isSome := by
  induction evs with
  | nil => simp [build_chaos_events]
  | cons ev rest ih =>
    obtain ⟨⟨s, hT⟩, ⟨nmv, hN⟩, ⟨t, hTs⟩, _⟩ :=
      wfEvent_spec ev (h ev (List.mem_cons_self ev rest))
    have hrest : ∀ e ∈ rest, wfEvent e = true :=
      fun e he => h e (List.mem_cons_of_mem _ he)
    have hbindts : (ev.lookup kTs).bind asNum = some t := by rw [hTs]; rfl
    by_cases hc : JVal.str s = JVal.str ("chaos_apply") ∨
        JVal.str s = JVal.str ("chaos_clear")
    · simp only [build_chaos_events, hT, if_pos hc, hbindts, hN,
        Option.isSome_map']
      exact ih hrest
    · simp only [build_chaos_events, hT, if_neg hc]
      exact ih hrest

theorem build_data_plane_metrics_isSome (evs : List EventDict)
    (h : ∀ e ∈ evs, wfEvent e = true) :
    (build_data_plane_metrics evs).isSome := by
  induction evs with
  | nil => simp [build_data_plane_metrics]
  | cons ev rest ih =>
    obtain ⟨⟨s, hT⟩, ⟨nmv, hN⟩, ⟨t, hTs⟩, _⟩ :=
      wfEvent_spec ev (h ev (List.mem_cons_self ev rest))
    have hrest : ∀ e ∈ rest, wfEvent e = true :=
      fun e he => h e (List.mem_cons_of_mem _ he)
    have hbindts : (ev.lookup kTs).bind asNum = some t := by rw [hTs]; rfl
    by_cases hd : pyStartsWith s dataPre
    · simp only [build_data_plane_metrics, hT, if_pos hd, hbindts, hN,
        Option.isSome_map']
      exact ih hrest
    · simp only [build_data_plane_metrics, hT, if_neg hd]
      exact ih hrest

theorem build_test_timeline_isSome (evs : List EventDict)
    (h : ∀ e ∈ evs, wfEvent e = true) : (build_test_timeline evs).isSome := by
  simp only [build_test_timeline, Option.isSome_map']
  exact bttLoop_isSome evs [] [] (by simp) h

theorem build_tier_summary_isSome (evs : List EventDict)
    (h : ∀ e ∈ evs, wfEvent e = true) : (build_tier_summary evs).isSome := by
  simp only [build_tier_summary, Option.isSome_map']
  exact tierLoop_isSome evs [] [] (by simp) h

/-! ### Evaluation lemmas for `generate_html` -/

theorem generate_html_of_empty_timeline (evs : List EventDict) (now : String)
    (tl : List TimelineEntry) (c : List ChaosEvent) (dm : List DataPlaneMetric)
    (ti : List TierSummary)
    (h1 : build_test_timeline evs = some tl)
    (h2 : build_chaos_events evs = some c)
    (h3 : build_data_plane_metrics evs = some dm)
    (h4 : build_tier_summary evs = some ti)
    (he : tl = []) :
    generate_html evs now = some noEventsHtml := by
  subst he
  simp [generate_html, h1, h2, h3, h4]

theorem generate_html_of_timeline (evs : List EventDict) (now : String)
    (tl : List TimelineEntry) (c : List ChaosEvent) (dm : List DataPlaneMetric)
    (ti : List TierSummary) (tMin tMax : Int)
    (h1 : build_test_timeline evs = some tl)
    (h2 : build_chaos_events evs = some c)
    (h3 : build_data_plane_metrics evs = some dm)
    (h4 : build_tier_summary evs = some ti)
    (he : tl ≠ [])
    (hmin : (allTimes tl).min? = some tMin)
    (hmax : (allTimes tl).max? = some tMax) :
    generate_html evs now =
      some (htmlBeforeNow ++ now ++
        htmlAfterNow evs tl c dm ti tMin (max (tMax - tMin) 1)) := by
  simp [generate_html, h1, h2, h3, h4, he, hmin, hmax]

theorem generate_html_isSome_inv (evs : List EventDict) (now : String)
    (h : (generate_html evs now).isSome) :
    ∃ tl c dm ti, build_test_timeline evs = some tl ∧
      build_chaos_events evs = some c ∧
      build_data_plane_metrics evs = some dm ∧
      build_tier_summary evs = some ti := by
  rcases h1 : build_test_timeline evs with _ | tl
  · rw [generate_html, h1] at h; cases h
  rcases h2 : build_chaos_events evs with _ | c
  · rw [generate_html, h1, h2] at h; cases h
  rcases h3 : build_data_plane_metrics evs with _ | dm
  · rw [generate_html, h1, h2, h3] at h; cases h
  rcases h4 : build_tier_summary evs with _ | ti
  · rw [generate_html, h1, h2, h3, h4] at h; cases h
  exact ⟨tl, c, dm, ti, rfl, rfl, rfl, rfl⟩

theorem allTimes_ne_nil (tl : List TimelineEntry) (h : tl ≠ []) :
    allTimes tl ≠ [] := by
  cases tl with
  | nil => exact absurd rfl h
  | cons t ts => simp [allTimes]

theorem generate_html_isSome_of_wf (evs : List EventDict) (now : String)
    (h : ∀ e ∈ evs, wfEvent e = true) : (generate_html evs now).isSome := by
  obtain ⟨tl, h1⟩ := Option.isSome_iff_exists.mp (build_test_timeline_isSome evs h)
  obtain ⟨c, h2⟩ := Option.isSome_iff_exists.mp (build_chaos_events_isSome evs h)
  obtain ⟨dm, h3⟩ :=
    Option.isSome_iff_exists.mp (build_data_plane_metrics_isSome evs h)
  obtain ⟨ti, h4⟩ := Option.isSome_iff_exists.mp (build_tier_summary_isSome evs h)
  by_cases he : tl = []
  · rw [generate_html_of_empty_timeline evs now tl c dm ti h1 h2 h3 h4 he]; rfl
  · obtain ⟨tMin, hmin⟩ := Option.isSome_iff_exists.mp
      (min?_isSome_of_ne_nil (allTimes_ne_nil tl he))
    obtain ⟨tMax, hmax⟩ := Option.isSome_iff_exists.mp
      (max?_isSome_of_ne_nil (allTimes_ne_nil tl he))
    rw [generate_html_of_timeline evs now tl c dm ti tMin tMax h1 h2 h3 h4
      he hmin hmax]
    rfl

/-! ### Claim C7 -/

/-- C7: for every well-formed event list whose derived timeline is empty
(in particular the empty list), `generate_html` returns the minimal document
containing the literal string "No test events found" instead of raising. -/
theorem empty_timeline_fallback (evs : List EventDict) (now : String)
    (hwf : ∀ e ∈ evs, wfEvent e = true)
    (hempty : build_test_timeline evs = some []) :
    generate_html evs now = some noEventsHtml ∧
    ∃ a b, noEventsHtml = a ++ "No test events found" ++ b := by
  obtain ⟨c, h2⟩ := Option.isSome_iff_exists.mp (build_chaos_events_isSome evs hwf)
  obtain ⟨dm, h3⟩ :=
    Option.isSome_iff_exists.mp (build_data_plane_metrics_isSome evs hwf)
  obtain ⟨ti, h4⟩ := Option.isSome_iff_exists.mp (build_tier_summary_isSome evs hwf)
  refine ⟨generate_html_of_empty_timeline evs now [] c dm ti hempty h2 h3 h4 rfl,
    ?_⟩
  exact ⟨"<html><body><h1>", "</h1></body></html>", by decide⟩

theorem empty_timeline_fallback_witness :
    (∀ e ∈ ([] : List EventDict), wfEvent e = true) ∧
    build_test_timeline [] = some [] ∧
    (generate_html [] ("2024-01-01 00:00:00 UTC") = some noEventsHtml ∧
      ∃ a b, noEventsHtml = a ++ "No test events found" ++ b) :=
  ⟨by decide, by decide,
   empty_timeline_fallback [] ("2024-01-01 00:00:00 UTC") (by decide) (by decide)⟩

/-! ### Claim C2 -/

/-- C2: events are read defensively — on any well-formed event list all four
aggregators succeed (no raise), and an event carrying only the universal
`type`/`name`/`ts` fields is aggregated with the default placeholders: the
timeline entry gets tier `"?"`, result `"?"` and the computed duration, and
the chaos record gets empty params and tier `"?"`. -/
theorem missing_fields_defaults (evs : List EventDict) (nm : JVal) (t : Int) :
    ((∀ e ∈ evs, wfEvent e = true) →
      (build_test_timeline evs).isSome ∧ (build_chaos_events evs).isSome ∧
      (build_data_plane_metrics evs).isSome ∧ (build_tier_summary evs).isSome) ∧
    build_test_timeline [[(kType, JVal.str ("test_end")), (kName, nm),
        (kTs, JVal.num t)]] =
      some [{ id := nm, test_name := nm, tier := JVal.str ("?"),
              start := t, endTs := t, duration := 0,
              result := JVal.str ("?") }] ∧
    build_chaos_events [[(kType, JVal.str ("chaos_apply")), (kName, nm),
        (kTs, JVal.num t)]] =
      some [{ ts := t, type := JVal.str ("chaos_apply"), node := nm,
              chaos_type := JVal.str ("chaos_apply"), params := JVal.str (""),
              tier := JVal.str ("?") }] := by
  refine ⟨fun h => ⟨build_test_timeline_isSome evs h,
    build_chaos_events_isSome evs h, build_data_plane_metrics_isSome evs h,
    build_tier_summary_isSome evs h⟩, ?_, ?_⟩
  · simp [build_test_timeline, bttLoop, List.lookup, kType, kName, kTs,
      kDuration, kTier, kResult, smapLookup, smapErase, dictGet, asNum, pyFloat]
  · simp [build_chaos_events, List.lookup, kType, kName, kTs, kTypeParam,
      kParams, kTier, dictGet, asNum]

def c2Events : List EventDict :=
  [[(kType, JVal.str ("test_end")), (kName, JVal.str ("X")), (kTs, JVal.num 3)],
   [(kType, JVal.str ("chaos_apply")), (kName, JVal.str ("node1")),
    (kTs, JVal.num 4)],
   [(kType, JVal.str ("data_transfer")), (kName, JVal.str ("a-b")),
    (kTs, JVal.num 5)],
   [(kType, JVal.str ("tier_end")), (kName, JVal.str ("1")), (kTs, JVal.num 6)]]

theorem missing_fields_defaults_witness :
    (∀ e ∈ c2Events, wfEvent e = true) ∧
    (((∀ e ∈ c2Events, wfEvent e = true) →
      (build_test_timeline c2Events).isSome ∧
      (build_chaos_events c2Events).isSome ∧
      (build_data_plane_metrics c2Events).isSome ∧
      (build_tier_summary c2Events).isSome) ∧
    build_test_timeline [[(kType, JVal.str ("test_end")),
        (kName, JVal.str ("X")), (kTs, JVal.num 3)]] =
      some [{ id := JVal.str ("X"), test_name := JVal.str ("X"),
              tier := JVal.str ("?"), start := 3, endTs := 3, duration := 0,
              result := JVal.str ("?") }] ∧
    build_chaos_events [[(kType, JVal.str ("chaos_apply")),
        (kName, JVal.str ("X")), (kTs, JVal.num 3)]] =
      some [{ ts := 3, type := JVal.str ("chaos_apply"),
              node := JVal.str ("X"),
              chaos_type := JVal.str ("chaos_apply"), params := JVal.str (""),
              tier := JVal.str ("?") }]) :=
  ⟨by decide, missing_fields_defaults c2Events (JVal.str ("X")) 3⟩

/-! ### Claim C3 -/

def c3Events : List EventDict :=
  [[(kType, JVal.str ("test_end")), (kName, JVal.str ("A")), (kTs, JVal.num 0)]]

def c3Timeline : List TimelineEntry :=
  [{ id := JVal.str ("A"), test_name := JVal.str ("A"), tier := JVal.str ("?"),
     start := 0, endTs := 0, duration := 0, result := JVal.str ("?") }]

/-- C3 counterexample: `generate_html` embeds the ambient clock reading
(line 212 of gen-report.py) into the report, so two runs over the same event
list at different times produce different HTML strings. -/
theorem report_depends_on_clock :
    generate_html c3Events ("2024-01-01 00:00:00 UTC") ≠
      generate_html c3Events ("2024-01-02 00:00:00 UTC") := by
  have e1 := generate_html_of_timeline c3Events ("2024-01-01 00:00:00 UTC")
    c3Timeline [] [] [] 0 0 (by decide) (by decide) (by decide) (by decide)
    (by decide) (by decide) (by decide)
  have e2 := generate_html_of_timeline c3Events ("2024-01-02 00:00:00 UTC")
    c3Timeline [] [] [] 0 0 (by decide) (by decide) (by decide) (by decide)
    (by decide) (by decide) (by decide)
  rw [e1, e2]
  intro heq
  have hd := congrArg String.data (Option.some.inj heq)
  simp only [String.data_append] at hd
  have h5 := List.append_cancel_right hd
  have h6 := List.append_cancel_left h5
  exact absurd h6 (by decide)

/-- C3 amended: report generation is deterministic given the event list and
the generation-time clock reading; the clock is the only external input, and
it enters the output as a single literal insertion between two strings that
depend only on the events (and not at all when the timeline is empty). -/
theorem report_deterministic_given_clock (evs : List EventDict) (now : String)
    (h : (generate_html evs now).isSome) :
    (∃ pre post : String, ∀ n : String,
      generate_html evs n = some (pre ++ n ++ post)) ∨
    (∀ n n' : String, generate_html evs n = generate_html evs n') := by
  obtain ⟨tl, c, dm, ti, h1, h2, h3, h4⟩ := generate_html_isSome_inv evs now h
  by_cases he : tl = []
  · right
    intro n n'
    rw [generate_html_of_empty_timeline evs n tl c dm ti h1 h2 h3 h4 he,
        generate_html_of_empty_timeline evs n' tl c dm ti h1 h2 h3 h4 he]
  · left
    obtain ⟨tMin, hmin⟩ := Option.isSome_iff_exists.mp
      (min?_isSome_of_ne_nil (allTimes_ne_nil tl he))
    obtain ⟨tMax, hmax⟩ := Option.isSome_iff_exists.mp
      (max?_isSome_of_ne_nil (allTimes_ne_nil tl he))
    exact ⟨htmlBeforeNow, htmlAfterNow evs tl c dm ti tMin (max (tMax - tMin) 1),
      fun n => generate_html_of_timeline evs n tl c dm ti tMin tMax
        h1 h2 h3 h4 he hmin hmax⟩

theorem report_deterministic_given_clock_witness :
    (generate_html c3Events ("T")).isSome ∧
    ((∃ pre post : String, ∀ n : String,
        generate_html c3Events n = some (pre ++ n ++ post)) ∨
      (∀ n n' : String,
        generate_html c3Events n = generate_html c3Events n')) := by
  have hs : (generate_html c3Events ("T")).isSome := by
    rw [generate_html_of_timeline c3Events ("T") c3Timeline [] [] [] 0 0
      (by decide) (by decide) (by decide) (by decide) (by decide) (by decide)
      (by decide)]
    rfl
  exact ⟨hs, report_deterministic_given_clock c3Events ("T") hs⟩

/-! ### Claim C1 -/

theorem bttLoop_length (evs : List EventDict) :
    ∀ (st : SMap) (tl : List TimelineEntry) (st' : SMap)
      (tl' : List TimelineEntry),
    bttLoop st tl evs = some (st', tl') →
    tl'.length = tl.length + testEndCount evs := by
  induction evs with
  | nil =>
    intro st tl st' tl' h
    simp only [bttLoop, Option.some.injEq, Prod.mk.injEq] at h
    simp [testEndCount, ← h.2]
  | cons ev rest ih =>
    intro st tl st' tl' h
    rcases hT : ev.lookup kType with _ | ty
    · simp only [bttLoop, hT] at h
      exact Option.noConfusion h
    · by_cases h1 : ty = JVal.str ("test_start")
      · rcases hN : ev.lookup kName with _ | nm
        · simp only [bttLoop, hT, if_pos h1, hN] at h
          exact Option.noConfusion h
        · simp only [bttLoop, hT, if_pos h1, hN] at h
          have hrec := ih _ _ _ _ h
          have hcnt : testEndCount (ev :: rest) = testEndCount rest := by
            simp [testEndCount, List.countP_cons, hT, h1]
          rw [hcnt]; exact hrec
      · by_cases h2 : ty = JVal.str ("test_end")
        · rcases hN : ev.lookup kName with _ | nm
          · simp only [bttLoop, hT, if_neg h1, if_pos h2, hN] at h
            exact Option.noConfusion h
          · rcases hTs : (ev.lookup kTs).bind asNum with _ | tE
            · simp only [bttLoop, hT, if_neg h1, if_pos h2, hN, hTs] at h
              exact Option.noConfusion h
            · rcases hS : (match smapLookup st nm with
                  | some sEv => (sEv.lookup kTs).bind asNum
                  | none => some tE) with _ | tS
              · simp only [bttLoop, hT, if_neg h1, if_pos h2, hN, hTs, hS] at h
                exact Option.noConfusion h
              · rcases hD : pyFloat (dictGet ev kDuration (JVal.num (tE - tS)))
                    with _ | dur
                · simp only [bttLoop, hT, if_neg h1, if_pos h2, hN, hTs, hS,
                    hD] at h
                  exact Option.noConfusion h
                · simp only [bttLoop, hT, if_neg h1, if_pos h2, hN, hTs, hS,
                    hD] at h
                  have hrec := ih _ _ _ _ h
                  rw [List.length_append] at hrec
                  simp only [List.length_singleton] at hrec
                  have hcnt : testEndCount (ev :: rest) =
                      testEndCount rest + 1 := by
                    simp [testEndCount, List.countP_cons, hT, h2]
                  rw [hcnt]; omega
        · simp only [bttLoop, hT, if_neg h1, if_neg h2] at h
          have hrec := ih _ _ _ _ h
          have hcnt : testEndCount (ev :: rest) = testEndCount rest := by
            simp [testEndCount, List.countP_cons, hT, h2]
          rw [hcnt]; exact hrec

def c1Events : List EventDict :=
  [[(kType, JVal.str ("test_end")), (kName, JVal.str ("A")), (kTs, JVal.num 5)],
   [(kType, JVal.str ("test_end")), (kName, JVal.str ("A")), (kTs, JVal.num 6)]]

def c1Timeline : List TimelineEntry :=
  [{ id := JVal.str ("A"), test_name := JVal.str ("A"), tier := JVal.str ("?"),
     start := 5, endTs := 5, duration := 0, result := JVal.str ("?") },
   { id := JVal.str ("A"), test_name := JVal.str ("A"), tier := JVal.str ("?"),
     start := 6, endTs := 6, duration := 0, result := JVal.str ("?") }]

/-- C1 counterexample: two `test_end` events for the same test name yield
two `TimelineEntry` records while only one distinct name has a `test_end`
event, so the entry count is not the distinct-name count. -/
theorem timeline_count_counterexample :
    (build_test_timeline c1Events).map List.length = some 2 ∧
    spec_distinctTestEndNames c1Events = 1 := by
  constructor <;> decide

/-- C1 amended: the number of `TimelineEntry` records produced by
`build_test_timeline` equals the number of `test_end` event occurrences in
the input (one entry per `test_end`), which is the distinct-name count only
when no name ends twice. -/
theorem timeline_count_eq_end_events (evs : List EventDict)
    (tl : List TimelineEntry) (hb : build_test_timeline evs = some tl) :
    tl.length = testEndCount evs := by
  simp only [build_test_timeline, Option.map_eq_some'] at hb
  obtain ⟨⟨st', tl'⟩, hb, h2⟩ := hb
  have hrec := bttLoop_length evs [] [] st' tl' hb
  simp only at h2
  rw [← h2]
  simpa using hrec

theorem timeline_count_eq_end_events_witness :
    build_test_timeline c1Events = some c1Timeline ∧
    c1Timeline.length = testEndCount c1Events :=
  ⟨by decide, timeline_count_eq_end_events c1Events c1Timeline (by decide)⟩

/-! ### Claim C4 -/

theorem bttLoop_append (xs : List EventDict) :
    ∀ (ys : List EventDict) (st : SMap) (tl : List TimelineEntry),
    bttLoop st tl (xs ++ ys) =
      (bttLoop st tl xs).bind (fun p => bttLoop p.1 p.2 ys) := by
  induction xs with
  | nil => intro ys st tl; simp [bttLoop]
  | cons ev rest ih =>
    intro ys st tl
    simp only [List.cons_append, bttLoop]
    rcases hT : ev.lookup kType with _ | ty
    · rfl
    · by_cases h1 : ty = JVal.str ("test_start")
      · rcases hN : ev.lookup kName with _ | nm
        · simp [if_pos h1]
        · simp [if_pos h1, ih]
      · by_cases h2 : ty = JVal.str ("test_end")
        · rcases hN : ev.lookup kName with _ | nm
          · simp [if_neg h1, if_pos h2]
          · rcases hTs : (ev.lookup kTs).bind asNum with _ | tE
            · simp [if_neg h1, if_pos h2, hTs]
            · rcases hS : (match smapLookup st nm with
                  | some sEv => (sEv.lookup kTs).bind asNum
                  | none => some tE) with _ | tS
              · simp [if_neg h1, if_pos h2, hTs, hS]
              · rcases hD : pyFloat (dictGet ev kDuration (JVal.num (tE - tS)))
                    with _ | dur
                · simp [if_neg h1, if_pos h2, hTs, hS, hD]
                · simp [if_neg h1, if_pos h2, hTs, hS, hD, ih]
        · simp [if_neg h1, if_neg h2, ih]

theorem bttLoop_no_start (nm : JVal) (evs : List EventDict) :
    ∀ (st : SMap) (tl : List TimelineEntry) (st' : SMap)
      (tl' : List TimelineEntry),
    (∀ e ∈ evs, ¬(e.lookup kType = some (JVal.str ("test_start")) ∧
      e.lookup kName = some nm)) →
    smapLookup st nm = none →
    bttLoop st tl evs = some (st', tl') →
    smapLookup st' nm = none := by
  induction evs with
  | nil =>
    intro st tl st' tl' _ hst h
    simp only [bttLoop, Option.some.injEq, Prod.mk.injEq] at h
    rw [← h.1]; exact hst
  | cons ev rest ih =>
    intro st tl st' tl' hno hst h
    have hnoev := hno ev (List.mem_cons_self ev rest)
    have hnorest : ∀ e ∈ rest,
        ¬(e.lookup kType = some (JVal.str ("test_start")) ∧
          e.lookup kName = some nm) :=
      fun e he => hno e (List.mem_cons_of_mem _ he)
    rcases hT : ev.lookup kType with _ | ty
    · simp only [bttLoop, hT] at h; exact Option.noConfusion h
    · by_cases h1 : ty = JVal.str ("test_start")
      · rcases hN : ev.lookup kName with _ | nm'
        · simp only [bttLoop, hT, if_pos h1, hN] at h
          exact Option.noConfusion h
        · simp only [bttLoop, hT, if_pos h1, hN] at h
          have hne : nm' ≠ nm := by
            intro hx
            exact hnoev ⟨by rw [hT, h1], by rw [hN, hx]⟩
          exact ih _ _ _ _ hnorest
            (smapLookup_insert_none st nm nm' ev hne hst) h
      · by_cases h2 : ty = JVal.str ("test_end")
        · rcases hN : ev.lookup kName with _ | nm'
          · simp only [bttLoop, hT, if_neg h1, if_pos h2, hN] at h
            exact Option.noConfusion h
          · rcases hTs : (ev.lookup kTs).bind asNum with _ | tE
            · simp only [bttLoop, hT, if_neg h1, if_pos h2, hN, hTs] at h
              exact Option.noConfusion h
            · rcases hS : (match smapLookup st nm' with
                  | some sEv => (sEv.lookup kTs).bind asNum
                  | none => some tE) with _ | tS
              · simp only [bttLoop, hT, if_neg h1, if_pos h2, hN, hTs, hS] at h
                exact Option.noConfusion h
              · rcases hD : pyFloat (dictGet ev kDuration (JVal.num (tE - tS)))
                    with _ | dur
                · simp only [bttLoop, hT, if_neg h1, if_pos h2, hN, hTs, hS,
                    hD] at h
                  exact Option.noConfusion h
                · simp only [bttLoop, hT, if_neg h1, if_pos h2, hN, hTs, hS,
                    hD] at h
                  exact ih _ _ _ _ hnorest
                    (smapLookup_erase_none st nm nm' hst) h
        · simp only [bttLoop, hT, if_neg h1, if_neg h2] at h
          exact ih _ _ _ _ hnorest hst h

theorem bttLoop_unmatched_end (starts : SMap) (tl : List TimelineEntry)
    (ev : EventDict) (rest : List EventDict) (nm : JVal) (t : Int)
    (hstart : smapLookup starts nm = none)
    (hty : ev.lookup kType = some (JVal.str ("test_end")))
    (hnm : ev.lookup kName = some nm)
    (hts : ev.lookup kTs = some (JVal.num t))
    (hdur : ev.lookup kDuration = none) :
    bttLoop starts tl (ev :: rest) =
      bttLoop (smapErase starts nm)
        (tl ++ [{ id := nm, test_name := dictGet ev kName (JVal.str ("")),
                  tier := dictGet ev kTier (JVal.str ("?")),
                  start := t, endTs := t, duration := 0,
                  result := dictGet ev kResult (JVal.str ("?")) }]) rest := by
  simp [bttLoop, hty, hnm, hts, hstart, asNum, dictGet, hdur, pyFloat]

theorem tierLoop_unmatched_end (starts : SMap) (ti : List TierSummary)
    (ev : EventDict) (rest : List EventDict) (nm : JVal) (t : Int)
    (hstart : smapLookup starts nm = none)
    (hty : ev.lookup kType = some (JVal.str ("tier_end")))
    (hnm : ev.lookup kName = some nm)
    (hts : ev.lookup kTs = some (JVal.num t)) :
    tierLoop starts ti (ev :: rest) =
      tierLoop (smapErase starts nm)
        (ti ++ [{ name := nm, start := t, endTs := t, duration := 0,
                  tests := JVal.str ("?") }]) rest := by
  simp [tierLoop, hty, hnm, hts, hstart, asNum]

/-- C4: an end event with no pending matching start uses its own timestamp
as the start: a `test_end` with no prior unconsumed `test_start` of the same
name (and no explicit duration field) contributes the final timeline entry
with start = end = its timestamp and duration 0, and an unmatched `tier_end`
likewise appends a tier summary with start = end and duration 0. -/
theorem unmatched_end_uses_own_timestamp :
    (∀ (evs : List EventDict) (ev : EventDict) (nm : JVal) (t : Int)
       (tlAll : List TimelineEntry),
      (∀ e ∈ evs, ¬(e.lookup kType = some (JVal.str ("test_start")) ∧
        e.lookup kName = some nm)) →
      ev.lookup kType = some (JVal.str ("test_end")) →
      ev.lookup kName = some nm →
      ev.lookup kTs = some (JVal.num t) →
      ev.lookup kDuration = none →
      build_test_timeline (evs ++ [ev]) = some tlAll →
      ∃ tl1 e', tlAll = tl1 ++ [e'] ∧ e'.start = t ∧ e'.endTs = t ∧
        e'.duration = 0) ∧
    (∀ (starts : SMap) (ti : List TierSummary) (ev : EventDict)
       (rest : List EventDict) (nm : JVal) (t : Int),
      smapLookup starts nm = none →
      ev.lookup kType = some (JVal.str ("tier_end")) →
      ev.lookup kName = some nm →
      ev.lookup kTs = some (JVal.num t) →
      tierLoop starts ti (ev :: rest) =
        tierLoop (smapErase starts nm)
          (ti ++ [{ name := nm, start := t, endTs := t, duration := 0,
                    tests := JVal.str ("?") }]) rest) := by
  constructor
  · intro evs ev nm t tlAll hno hty hnm hts hdur hb
    simp only [build_test_timeline, Option.map_eq_some'] at hb
    obtain ⟨⟨stF, tlF⟩, hb, hproj⟩ := hb
    rw [bttLoop_append] at hb
    rcases hmid : bttLoop [] [] evs with _ | p
    · rw [hmid] at hb; exact Option.noConfusion hb
    · rw [hmid] at hb
      obtain ⟨st1, tl1⟩ := p
      have hnone : smapLookup st1 nm = none :=
        bttLoop_no_start nm evs [] [] st1 tl1 hno rfl hmid
      rw [Option.some_bind] at hb
      rw [bttLoop_unmatched_end st1 tl1 ev [] nm t hnone hty hnm hts hdur] at hb
      simp only [bttLoop, Option.some.injEq, Prod.mk.injEq] at hb
      simp only at hproj
      refine ⟨tl1,
        { id := nm, test_name := dictGet ev kName (JVal.str ("")),
          tier := dictGet ev kTier (JVal.str ("?")),
          start := t, endTs := t, duration := 0,
          result := dictGet ev kResult (JVal.str ("?")) }, ?_, rfl, rfl, rfl⟩
      rw [← hproj, ← hb.2]
  · intro starts ti ev rest nm t hstart hty hnm hts
    exact tierLoop_unmatched_end starts ti ev rest nm t hstart hty hnm hts

def c4End : EventDict :=
  [(kType, JVal.str ("test_end")), (kName, JVal.str ("B")), (kTs, JVal.num 5)]

def c4Timeline : List TimelineEntry :=
  [{ id := JVal.str ("B"), test_name := JVal.str ("B"), tier := JVal.str ("?"),
     start := 5, endTs := 5, duration := 0, result := JVal.str ("?") }]

def c4TierEnd : EventDict :=
  [(kType, JVal.str ("tier_end")), (kName, JVal.str ("1")), (kTs, JVal.num 5)]

theorem unmatched_end_uses_own_timestamp_witness :
    (∃ tl1 e', c4Timeline = tl1 ++ [e'] ∧ e'.start = 5 ∧ e'.endTs = 5 ∧
      e'.duration = 0) ∧
    tierLoop [] [] (c4TierEnd :: []) =
      tierLoop (smapErase [] (JVal.str ("1")))
        ([] ++ [{ name := JVal.str ("1"), start := 5, endTs := 5,
                  duration := 0, tests := JVal.str ("?") }]) [] :=
  ⟨(unmatched_end_uses_own_timestamp).1 [] c4End (JVal.str ("B")) 5 c4Timeline
     (by simp) (by decide) (by decide) (by decide) (by decide) (by decide),
   (unmatched_end_uses_own_timestamp).2 [] [] c4TierEnd [] (JVal.str ("1")) 5
     rfl (by decide) (by decide) (by decide)⟩

/-! ### Claim C6 -/

theorem build_data_plane_metrics_mem (evs : List EventDict) :
    ∀ (ms : List DataPlaneMetric) (ev : EventDict) (s : String) (nm : JVal)
      (t : Int),
    build_data_plane_metrics evs = some ms → ev ∈ evs →
    ev.lookup kType = some (JVal.str s) → pyStartsWith s dataPre = true →
    ev.lookup kTs = some (JVal.num t) → ev.lookup kName = some nm →
    ({ ts := t, type := s, name := nm,
       tier := dictGet ev kTier (JVal.str ("?")),
       extra := ev.filter (fun p => !(reservedKeys.contains p.1)) } :
      DataPlaneMetric) ∈ ms := by
  induction evs with
  | nil => intro ms ev s nm t _ hmem; cases hmem
  | cons e rest ih =>
    intro ms ev s nm t hb hmem hty hpre hts hnm
    rcases List.mem_cons.mp hmem with heq | hmem'
    · subst heq
      have hbind : (ev.lookup kTs).bind asNum = some t := by rw [hts]; rfl
      simp only [build_data_plane_metrics, hty, if_pos hpre, hbind, hnm] at hb
      rcases hrest : build_data_plane_metrics rest with _ | ms'
      · rw [hrest] at hb; exact Option.noConfusion hb
      · rw [hrest] at hb
        simp only [Option.map_some', Option.some.injEq] at hb
        rw [← hb]
        exact List.mem_cons_self _ _
    · rcases hTy : e.lookup kType with _ | ty
      · simp only [build_data_plane_metrics, hTy] at hb
        exact Option.noConfusion hb
      · cases ty with
        | str sh =>
          by_cases hd : pyStartsWith sh dataPre
          · rcases hts1 : (e.lookup kTs).bind asNum with _ | t1
            · simp only [build_data_plane_metrics, hTy, if_pos hd, hts1] at hb
              exact Option.noConfusion hb
            · rcases hnm1 : e.lookup kName with _ | nm1
              · simp only [build_data_plane_metrics, hTy, if_pos hd, hts1,
                  hnm1] at hb
                exact Option.noConfusion hb
              · simp only [build_data_plane_metrics, hTy, if_pos hd, hts1,
                  hnm1] at hb
                rcases hrest : build_data_plane_metrics rest with _ | ms'
                · rw [hrest] at hb; exact Option.noConfusion hb
                · rw [hrest] at hb
                  simp only [Option.map_some', Option.some.injEq] at hb
                  rw [← hb]
                  exact List.mem_cons_of_mem _
                    (ih ms' ev s nm t hrest hmem' hty hpre hts hnm)
          · simp only [build_data_plane_metrics, hTy, if_neg hd] at hb
            exact ih ms ev s nm t hb hmem' hty hpre hts hnm
        | num n =>
          simp only [build_data_plane_metrics, hTy] at hb
          exact Option.noConfusion hb
        | bool b =>
          simp only [build_data_plane_metrics, hTy] at hb
          exact Option.noConfusion hb
        | null =>
          simp only [build_data_plane_metrics, hTy] at hb
          exact Option.noConfusion hb

/-- C6: every field of a `data_`-prefixed event other than the reserved
ts/type/name/tier is copied verbatim into its data-plane metric record, and
well-formed event lists containing such events (with any number of extra
fields) are aggregated and rendered without raising. -/
theorem data_fields_passthrough (evs : List EventDict) (now : String)
    (hwf : ∀ e ∈ evs, wfEvent e = true) :
    (generate_html evs now).isSome ∧
    (∀ ms, build_data_plane_metrics evs = some ms →
      ∀ ev ∈ evs, ∀ (s : String) (nm : JVal) (t : Int),
        ev.lookup kType = some (JVal.str s) → pyStartsWith s dataPre = true →
        ev.lookup kName = some nm → ev.lookup kTs = some (JVal.num t) →
        ∃ m ∈ ms, m.ts = t ∧ m.type = s ∧ m.name = nm ∧
          ∀ (k : String) (v : JVal),
            ((k, v) ∈ m.extra ↔ (k, v) ∈ ev ∧
              reservedKeys.contains k = false)) := by
  refine ⟨generate_html_isSome_of_wf evs now hwf, ?_⟩
  intro ms hb ev hmem s nm t hty hpre hnm hts
  refine ⟨_,
    build_data_plane_metrics_mem evs ms ev s nm t hb hmem hty hpre hts hnm,
    rfl, rfl, rfl, ?_⟩
  intro k v
  constructor
  · intro h
    have h' := List.mem_filter.mp h
    exact ⟨h'.1, by simpa using h'.2⟩
  · rintro ⟨h1, h2⟩
    exact List.mem_filter.mpr ⟨h1, by simpa using h2⟩

def c6Events : List EventDict :=
  [[(kType, JVal.str ("data_transfer")), (kName, JVal.str ("a-b")),
    (kTs, JVal.num 1), (kResult, JVal.str ("ok"))],
   [(kType, JVal.str ("data_transfer")), (kName, JVal.str ("c-d")),
    (kTs, JVal.num 2), (kResult, JVal.str ("ok")), (kMbps, JVal.num 940),
    (kSizeMb, JVal.num 64), (kPayload, JVal.str ("random")),
    ("retries", JVal.num 0)]]

theorem data_fields_passthrough_witness :
    (∀ e ∈ c6Events, wfEvent e = true) ∧
    ((generate_html c6Events ("T")).isSome ∧
      (∀ ms, build_data_plane_metrics c6Events = some ms →
        ∀ ev ∈ c6Events, ∀ (s : String) (nm : JVal) (t : Int),
          ev.lookup kType = some (JVal.str s) →
          pyStartsWith s dataPre = true →
          ev.lookup kName = some nm → ev.lookup kTs = some (JVal.num t) →
          ∃ m ∈ ms, m.ts = t ∧ m.type = s ∧ m.name = nm ∧
            ∀ (k : String) (v : JVal),
              ((k, v) ∈ m.extra ↔ (k, v) ∈ ev ∧
                reservedKeys.contains k = false))) :=
  ⟨by decide, data_fields_passthrough c6Events ("T") (by decide)⟩
